import Mathlib

/-!
Verification development for the live-ov-info ingestion pipeline.

Shallow embedding of the core components:
* the KV6 message parser (src/core/parser.ts): normalizeMessage, parseXml;
* the vehicle state store (src/tui/state.ts): updateVehicle, getStatusCounts;
* the event distribution paths (src/core/event-bus.ts emit delegating to
  the Node EventEmitter, and APIServer.broadcastSSE);
* the content decoder (src/core/connector.ts): decodeContent.

Modelling conventions: JavaScript strings-or-undefined become Option String;
JavaScript numbers arising from Number(...) coercion become JsNum, which keeps
NaN distinct from numeric values; JavaScript exceptions become Except; the
coordinate transformer convertRdToWgs84 (whose source file is not part of the
repository snapshot) is a parameter returning Option (none = domain error).
The Number(...) coercion is modelled on integer-literal strings: integer text
parses, blank text is 0, anything else is NaN, matching the JavaScript
behaviour on every input exercised here.
-/

/-- Model of a JavaScript number produced by Number(...) coercion:
either NaN or an integer value. -/
inductive JsNum where
  | nan : JsNum
  | num : Int → JsNum
deriving DecidableEq, Repr

/-- Whitespace as trimmed by the JavaScript Number coercion. -/
def isJsSpace (c : Char) : Bool :=
  c == ' ' || c == '\t' || c == '\n' || c == '\r'

/-- Both-ends whitespace trim over characters. -/
def trimChars (l : List Char) : List Char :=
  ((l.dropWhile isJsSpace).reverse.dropWhile isJsSpace).reverse

/-- Parse a non-empty all-digit character list as a natural number. -/
def parseNatDigits : List Char → Option Nat
  | [] => none
  | l =>
    l.foldl
      (fun acc c =>
        match acc with
        | none => none
        | some a => if c.isDigit then some (a * 10 + (c.toNat - 48)) else none)
      (some 0)

/-- Shallow model of the JavaScript Number(text) coercion on the string shapes
arising from the XML fields: whitespace-only text coerces to 0, integer text
parses (optionally signed), anything else is NaN. -/
def jsNumber (s : String) : JsNum :=
  match trimChars s.data with
  | [] => JsNum.num 0
  | '-' :: rest =>
    match parseNatDigits rest with
    | some n => JsNum.num (-(n : Int))
    | none => JsNum.nan
  | t =>
    match parseNatDigits t with
    | some n => JsNum.num (n : Int)
    | none => JsNum.nan

/-- JavaScript truthiness of a string-or-undefined value: truthy exactly when
present and non-empty. -/
def strTruthy : Option String → Bool
  | none => false
  | some s => s ≠ ""

/-- JavaScript truthiness of a number-or-undefined value: NaN, 0 and undefined
are falsy. -/
def numTruthy : Option JsNum → Bool
  | none => false
  | some JsNum.nan => false
  | some (JsNum.num n) => n ≠ 0

/-- The fixed closed set of KV6 event types (src/types/kv6.ts), in declaration
order, which is the order Object.values enumerates them in parseXml. -/
inductive KV6MessageType where
  | ARRIVAL | DEPARTURE | ONROUTE | ONSTOP | INIT | END | DELAY | OFFROUTE | CANCEL
deriving DecidableEq, Repr

/-- Enumeration of the event types in declaration order, as Object.values
yields them in KV6Parser.parseXml. -/
def typeList : List KV6MessageType :=
  [KV6MessageType.ARRIVAL, KV6MessageType.DEPARTURE, KV6MessageType.ONROUTE,
   KV6MessageType.ONSTOP, KV6MessageType.INIT, KV6MessageType.END,
   KV6MessageType.DELAY, KV6MessageType.OFFROUTE, KV6MessageType.CANCEL]

/-- The XML tag name of each event type (the enum string values). -/
def typeName : KV6MessageType → String
  | KV6MessageType.ARRIVAL => "ARRIVAL"
  | KV6MessageType.DEPARTURE => "DEPARTURE"
  | KV6MessageType.ONROUTE => "ONROUTE"
  | KV6MessageType.ONSTOP => "ONSTOP"
  | KV6MessageType.INIT => "INIT"
  | KV6MessageType.END => "END"
  | KV6MessageType.DELAY => "DELAY"
  | KV6MessageType.OFFROUTE => "OFFROUTE"
  | KV6MessageType.CANCEL => "CANCEL"

/-- The recognized tag names under the KV6posinfo root. -/
def recognizedTags : List String := typeList.map typeName

/-- A raw per-message record as produced by the XML library after normalizeKeys
(dash-to-underscore key rewriting): each field is the text content of the
correspondingly named child element, or absent. -/
structure RawMessage where
  journeynumber : Option String := none
  vehiclenumber : Option String := none
  lineplanningnumber : Option String := none
  timestamp : Option String := none
  userstopcode : Option String := none
  punctuality : Option String := none
  rd_x : Option String := none
  rd_y : Option String := none
  occupancy : Option String := none
deriving DecidableEq, Repr

/-- The normalized event shape KV6Update (src/types/kv6.ts). The timestamp is
modelled by the raw text it was constructed from. -/
structure KV6Update where
  operator : String
  type : KV6MessageType
  journeyNumber : Option String
  vehicleNumber : Option String
  lineNumber : Option String
  timestamp : Option String
  stopCode : Option String
  latitude : Option JsNum
  longitude : Option JsNum
  punctuality : Option JsNum
  occupancy : Option JsNum
deriving DecidableEq, Repr

/-- The base object built by KV6Parser.normalizeMessage (parser.ts lines
113-124): fields copied directly from the raw message, punctuality coerced
only when the raw field is truthy, no position data. -/
def baseUpdate (rawMessage : RawMessage) (type : KV6MessageType)
    (operator : String) : KV6Update :=
  { operator := operator
    type := type
    journeyNumber := rawMessage.journeynumber
    vehicleNumber := rawMessage.vehiclenumber
    lineNumber := rawMessage.lineplanningnumber
    timestamp := rawMessage.timestamp
    stopCode := rawMessage.userstopcode
    punctuality :=
      if strTruthy rawMessage.punctuality then
        some (jsNumber (rawMessage.punctuality.getD ""))
      else none
    latitude := none
    longitude := none
    occupancy := none }

/-- KV6Parser.normalizeMessage (parser.ts lines 107-152), with the coordinate
transformer convertRdToWgs84 as the parameter conv (some = converted pair,
none = domain error): when both rd fields are defined the transformer runs;
on success latitude/longitude and the occupancy coercion are attached; on
error the base record is returned unchanged. -/
def normalizeMessage (conv : JsNum → JsNum → Option (JsNum × JsNum))
    (rawMessage : RawMessage) (type : KV6MessageType) (operator : String) :
    KV6Update :=
  let base : KV6Update := baseUpdate rawMessage type operator
  if rawMessage.rd_x.isSome ∧ rawMessage.rd_y.isSome then
    match conv (jsNumber (rawMessage.rd_x.getD ""))
        (jsNumber (rawMessage.rd_y.getD "")) with
    | none => base
    | some position =>
      { base with
        latitude := some position.1
        longitude := some position.2
        occupancy :=
          if strTruthy rawMessage.occupancy then
            some (jsNumber (rawMessage.occupancy.getD ""))
          else none }
  else base

/-- A child element's value as xml2js parses it: a childless or
whitespace-only element collapses to the empty string (the only falsy value
the library produces here), anything else is a message record. An element
with pure non-empty text content has no named fields and behaves in
normalizeMessage exactly like a record with every field absent, so it is
modelled as such a record. -/
inductive XmlValue where
  | emptyText : XmlValue
  | record : RawMessage → XmlValue
deriving DecidableEq, Repr

/-- Reading the message fields off a child value: property access on the
empty string yields undefined for every field. -/
def toRawMessage : XmlValue → RawMessage
  | XmlValue.emptyText => {}
  | XmlValue.record m => m

/-- The children of the KV6posinfo root node in document order: a list of
(tag name, value) pairs. Envelope resolution (VV_TM_PUSH wrapper or bare
root, parser.ts lines 52-66) happens upstream of this node. -/
abbrev XmlDoc := List (String × XmlValue)

/-- The occurrences of one tag under the root, in document order. With
explicitArray false the library stores a single occurrence directly and
several as an array, so the program sees for this tag: nothing when the list
is empty, the lone value when it is a singleton, the array otherwise. -/
def tagOccurrences (doc : XmlDoc) (tag : String) : List XmlValue :=
  (doc.filter (fun c => c.1 == tag)).map (fun c => c.2)

/-- The loop body of KV6Parser.parseXml for one event type (parser.ts lines
72-86): the guard `if (kv6[type])` skips an absent key and also a lone
occurrence that collapsed to the falsy empty string; otherwise every listed
value (array elements included, even empty ones) is normalized into one
event. -/
def typeBlock (conv : JsNum → JsNum → Option (JsNum × JsNum)) (doc : XmlDoc)
    (operator : String) (t : KV6MessageType) : List KV6Update :=
  let vs := tagOccurrences doc (typeName t)
  if vs = [XmlValue.emptyText] then []
  else vs.map fun v => normalizeMessage conv (toRawMessage v) t operator

/-- KV6Parser.parseXml (src/core/parser.ts lines 68-89): for each event type
in Object.values order, run the guarded per-tag loop body; unrecognized tags
are never consulted. -/
def parseXml (conv : JsNum → JsNum → Option (JsNum × JsNum)) (doc : XmlDoc)
    (operator : String) : List KV6Update :=
  typeList.flatMap fun t => typeBlock conv doc operator t

/-- A stored vehicle state (src/tui/state.ts, interface VehicleState). The
lastUpdated timestamp carries the same model as event timestamps. -/
structure VehicleState where
  vehicleNumber : String
  lineNumber : String
  status : KV6MessageType
  stopCode : Option String := none
  latitude : Option JsNum := none
  longitude : Option JsNum := none
  occupancy : Option JsNum := none
  punctuality : Option JsNum := none
  lastUpdated : Option String := none
deriving DecidableEq, Repr

/-- The store's Map of vehicle id to state, modelled as an association list in
insertion order, matching JavaScript Map iteration semantics. -/
abbrev VehicleMap := List (String × VehicleState)

/-- JavaScript Map.get: the value at the first (and only) entry for the key. -/
def mapGet : VehicleMap → String → Option VehicleState
  | [], _ => none
  | p :: rest, k => if p.1 == k then some p.2 else mapGet rest k

/-- JavaScript Map.set: replace in place the entry for an existing key,
otherwise append the new entry. -/
def mapSet : VehicleMap → String → VehicleState → VehicleMap
  | [], k, v => [(k, v)]
  | p :: rest, k, v =>
    if p.1 == k then (k, v) :: rest else p :: mapSet rest k v

/-- The statuses counted as active by getStatusCounts. -/
def activeStatuses : List KV6MessageType :=
  [KV6MessageType.ARRIVAL, KV6MessageType.DEPARTURE, KV6MessageType.ONROUTE,
   KV6MessageType.ONSTOP]

/-- VehicleStateManager.updateVehicle (src/tui/state.ts lines 338-374):
skip falsy vehicle numbers; seed a fresh state when the id is unknown; then
merge, where status, lastUpdated are taken unconditionally, lineNumber,
stopCode, latitude, longitude overwrite only when truthy (the source spreads
conditionally on JavaScript truthiness), and occupancy, punctuality overwrite
whenever defined (the source compares against undefined). -/
def updateVehicle (vehicles : VehicleMap) (update : KV6Update) : VehicleMap :=
  if strTruthy update.vehicleNumber = false then vehicles
  else
    let vn := update.vehicleNumber.getD ""
    let existingState : VehicleState :=
      match mapGet vehicles vn with
      | some st => st
      | none =>
        { vehicleNumber := vn
          lineNumber :=
            if strTruthy update.lineNumber then update.lineNumber.getD ""
            else "Unknown"
          status := update.type
          lastUpdated := update.timestamp }
    let newState : VehicleState :=
      { vehicleNumber := existingState.vehicleNumber
        status := update.type
        lastUpdated := update.timestamp
        lineNumber :=
          if strTruthy update.lineNumber then update.lineNumber.getD ""
          else existingState.lineNumber
        stopCode :=
          if strTruthy update.stopCode then update.stopCode
          else existingState.stopCode
        latitude :=
          if numTruthy update.latitude then update.latitude
          else existingState.latitude
        longitude :=
          if numTruthy update.longitude then update.longitude
          else existingState.longitude
        occupancy :=
          if update.occupancy.isSome then update.occupancy
          else existingState.occupancy
        punctuality :=
          if update.punctuality.isSome then update.punctuality
          else existingState.punctuality }
    mapSet vehicles vn newState

/-- The aggregate counters built by getStatusCounts: the total and active
fields plus one counter per status value. -/
structure StatusCounts where
  total : Nat
  active : Nat
  perStatus : KV6MessageType → Nat

/-- The loop body of getStatusCounts (state.ts lines 406-422): increment
active when the status is one of the active statuses and always increment the
per-status counter. -/
def countStep (counts : StatusCounts) (kv : String × VehicleState) :
    StatusCounts :=
  let counts1 :=
    if kv.2.status ∈ activeStatuses then
      { counts with active := counts.active + 1 }
    else counts
  { counts1 with
    perStatus := fun s =>
      if s = kv.2.status then counts1.perStatus s + 1
      else counts1.perStatus s }

/-- VehicleStateManager.getStatusCounts (src/tui/state.ts lines 399-429):
start from total = size, active = 0, then walk every stored vehicle,
incrementing active for the active statuses and the per-status counter. -/
def getStatusCounts (vehicles : VehicleMap) : StatusCounts :=
  vehicles.foldl countStep
    { total := vehicles.length, active := 0, perStatus := fun _ => 0 }

/-- A registered consumer of published events, abstracted to its observable
behaviour: an identity and whether its delivery callback raises. -/
structure Subscriber where
  id : Nat
  raises : Bool
deriving DecidableEq, Repr

/-- One delivery attempt to one consumer: raises exactly when the consumer's
callback raises (SSE write failure, respectively listener throw). -/
def writeClient (c : Subscriber) : Except Nat Unit :=
  if c.raises then Except.error c.id else Except.ok ()

/-- TypedEventEmitter.emit (src/core/event-bus.ts lines 41-43) delegating to
the Node EventEmitter: listeners are invoked synchronously in registration
order with no per-listener catch, so a throwing listener aborts the loop and
the exception propagates out of emit. Returns the ids delivered to. -/
def emitToListeners : List Subscriber → Except Nat (List Nat)
  | [] => Except.ok []
  | s :: rest =>
    match writeClient s with
    | Except.error e => Except.error e
    | Except.ok _ =>
      match emitToListeners rest with
      | Except.error e => Except.error e
      | Except.ok ds => Except.ok (s.id :: ds)

/-- APIServer.broadcastSSE (part_000 lines 967-991): each client write is
wrapped in its own try/catch; a failing client is recorded and the loop
continues, so the call always returns. Returns (ids written successfully,
ids recorded as disconnected), each in client order. -/
def broadcastSSE : List Subscriber → List Nat × List Nat
  | [] => ([], [])
  | c :: rest =>
    let r := broadcastSSE rest
    match writeClient c with
    | Except.ok _ => (c.id :: r.1, r.2)
    | Except.error e => (r.1, e :: r.2)

/-- A byte buffer: the payload bytes, each in 0..255. -/
abbrev ByteBuf := List Nat

/-- Buffer.toString with the latin1 encoding: total, one character per byte. -/
def latin1Decode (buffer : ByteBuf) : List Char :=
  buffer.map (fun b => Char.ofNat (b % 256))

/-- Whether pat occurs at the start of text. -/
def leadsWith : List Char → List Char → Bool
  | [], _ => true
  | _ :: _, [] => false
  | p :: ps, c :: cs => p == c && leadsWith ps cs

/-- First index at or after i where pat occurs in text, scanning forward. -/
def idxFrom (pat : List Char) : List Char → Nat → Option Nat
  | [], i => if leadsWith pat [] then some i else none
  | c :: rest, i =>
    if leadsWith pat (c :: rest) then some i else idxFrom pat rest (i + 1)

/-- JavaScript String.indexOf: the first occurrence index, or -1. -/
def jsIndexOf (text pat : List Char) : Int :=
  match idxFrom pat text 0 with
  | some i => (i : Int)
  | none => -1

/-- The three recognized root-element markers of the decoder. -/
def xmlDeclMarker : List Char := "<?xml".data

/-- Marker for the enveloped payload root. -/
def vvTmPushMarker : List Char := "<VV_TM_PUSH".data

/-- Marker for the bare payload root. -/
def kv6posinfoMarker : List Char := "<KV6posinfo".data

/-- The decoder's looks-like-XML test: includes of any recognized marker. -/
def looksLikeXml (text : List Char) : Bool :=
  (idxFrom xmlDeclMarker text 0).isSome ||
  (idxFrom vvTmPushMarker text 0).isSome ||
  (idxFrom kv6posinfoMarker text 0).isSome

/-- Math.max of the three indexOf results (connector.ts lines 123-127). -/
def xmlStartIndex (text : List Char) : Int :=
  max (jsIndexOf text xmlDeclMarker)
    (max (jsIndexOf text vvTmPushMarker) (jsIndexOf text kv6posinfoMarker))

/-- The gzip magic-number sniff (connector.ts line 87): header bytes 1F 8B. -/
def gzipMagic : ByteBuf → Bool
  | b0 :: b1 :: _ => b0 == 0x1F && b1 == 0x8B
  | _ => false

/-- The zlib header sniff (connector.ts line 93): 78 01, 78 9C or 78 DA. -/
def zlibHeader : ByteBuf → Bool
  | b0 :: b1 :: _ => b0 == 0x78 && (b1 == 0x01 || b1 == 0x9C || b1 == 0xDA)
  | _ => false

/-- The body of NDOVConnector.decodeContent (connector.ts lines 82-134),
inside the outer try: gzip sniff, zlib sniff, blind inflate guarded by its
own inner catch and a marker check, the encoding list walk, then the latin1
fallback scan with Math.max of the marker positions. The decompressors gz
and infl are oracles that may raise; the utf8 and ascii decoders are total,
as Buffer.toString is. -/
def decodeBody (gz infl : ByteBuf → Except String ByteBuf)
    (utf8D asciiD : ByteBuf → List Char) (buffer : ByteBuf) :
    Except String (List Char) :=
  if gzipMagic buffer then (gz buffer).map utf8D
  else if zlibHeader buffer then (infl buffer).map utf8D
  else
    let blind : Option (List Char) :=
      match infl buffer with
      | Except.ok d => if looksLikeXml (utf8D d) then some (utf8D d) else none
      | Except.error _ => none
    match blind with
    | some s => Except.ok s
    | none =>
      match [utf8D buffer, latin1Decode buffer, asciiD buffer].find?
          looksLikeXml with
      | some s => Except.ok s
      | none =>
        let latin1Str := latin1Decode buffer
        if xmlStartIndex latin1Str ≥ 0 then
          Except.ok (latin1Str.drop (xmlStartIndex latin1Str).toNat)
        else Except.ok latin1Str

/-- NDOVConnector.decodeContent: the body under the outer try/catch whose
catch clause falls back to the total latin1 decoding (connector.ts lines
135-139). -/
def decodeContent (gz infl : ByteBuf → Except String ByteBuf)
    (utf8D asciiD : ByteBuf → List Char) (buffer : ByteBuf) :
    Except String (List Char) :=
  match decodeBody gz infl utf8D asciiD buffer with
  | Except.ok s => Except.ok s
  | Except.error _ => Except.ok (latin1Decode buffer)

/-- The stage-5 fallback extraction in isolation (connector.ts lines 121-131):
scan the latin1 text for the markers and, when Math.max of the indexOf results
is non-negative, take the substring from there. -/
def fallbackExtract (text : List Char) : Option (List Char) :=
  if xmlStartIndex text ≥ 0 then some (text.drop (xmlStartIndex text).toNat)
  else none

/-- A coordinate transformer that always reports a domain error. -/
def convNone : JsNum → JsNum → Option (JsNum × JsNum) := fun _ _ => none

/-- A coordinate transformer that always succeeds, echoing its input pair. -/
def convId : JsNum → JsNum → Option (JsNum × JsNum) := fun x y => some (x, y)

/-! Helper lemmas about the embedded operations. -/

lemma normalizeMessage_no_coords (conv : JsNum → JsNum → Option (JsNum × JsNum))
    (raw : RawMessage) (t : KV6MessageType) (op : String)
    (h : ¬(raw.rd_x.isSome ∧ raw.rd_y.isSome)) :
    normalizeMessage conv raw t op = baseUpdate raw t op := by
  simp [normalizeMessage, h]

lemma normalizeMessage_conv_error
    (conv : JsNum → JsNum → Option (JsNum × JsNum)) (raw : RawMessage)
    (t : KV6MessageType) (op : String)
    (hx : raw.rd_x.isSome) (hy : raw.rd_y.isSome)
    (hc : conv (jsNumber (raw.rd_x.getD "")) (jsNumber (raw.rd_y.getD ""))
      = none) :
    normalizeMessage conv raw t op = baseUpdate raw t op := by
  simp [normalizeMessage, hx, hy, hc]

lemma normalizeMessage_conv_ok
    (conv : JsNum → JsNum → Option (JsNum × JsNum)) (raw : RawMessage)
    (t : KV6MessageType) (op : String) (p : JsNum × JsNum)
    (hx : raw.rd_x.isSome) (hy : raw.rd_y.isSome)
    (hc : conv (jsNumber (raw.rd_x.getD "")) (jsNumber (raw.rd_y.getD ""))
      = some p) :
    normalizeMessage conv raw t op =
      { baseUpdate raw t op with
        latitude := some p.1
        longitude := some p.2
        occupancy :=
          if strTruthy raw.occupancy then
            some (jsNumber (raw.occupancy.getD ""))
          else none } := by
  simp [normalizeMessage, hx, hy, hc]

lemma normalizeMessage_type (conv : JsNum → JsNum → Option (JsNum × JsNum))
    (raw : RawMessage) (t : KV6MessageType) (op : String) :
    (normalizeMessage conv raw t op).type = t := by
  unfold normalizeMessage
  split
  · split <;> rfl
  · rfl

lemma normalizeMessage_operator (conv : JsNum → JsNum → Option (JsNum × JsNum))
    (raw : RawMessage) (t : KV6MessageType) (op : String) :
    (normalizeMessage conv raw t op).operator = op := by
  unfold normalizeMessage
  split
  · split <;> rfl
  · rfl

lemma normalizeMessage_punctuality
    (conv : JsNum → JsNum → Option (JsNum × JsNum)) (raw : RawMessage)
    (t : KV6MessageType) (op : String) :
    (normalizeMessage conv raw t op).punctuality =
      (baseUpdate raw t op).punctuality := by
  unfold normalizeMessage
  split
  · split <;> rfl
  · rfl

lemma mapGet_mapSet_self (m : VehicleMap) (k : String) (v : VehicleState) :
    mapGet (mapSet m k v) k = some v := by
  induction m with
  | nil => simp [mapSet, mapGet]
  | cons p rest ih =>
    by_cases h : p.1 == k
    · simp [mapSet, mapGet, h]
    · simp [mapSet, mapGet, h, ih]

lemma typeBlock_eq_nil (conv : JsNum → JsNum → Option (JsNum × JsNum))
    (doc : XmlDoc) (op : String) (t : KV6MessageType)
    (h : tagOccurrences doc (typeName t) = [XmlValue.emptyText]) :
    typeBlock conv doc op t = [] := by
  simp [typeBlock, h]

lemma typeBlock_eq_map (conv : JsNum → JsNum → Option (JsNum × JsNum))
    (doc : XmlDoc) (op : String) (t : KV6MessageType)
    (h : tagOccurrences doc (typeName t) ≠ [XmlValue.emptyText]) :
    typeBlock conv doc op t
      = (tagOccurrences doc (typeName t)).map
          (fun v => normalizeMessage conv (toRawMessage v) t op) := by
  simp [typeBlock, h]

lemma typeBlock_type_eq (conv : JsNum → JsNum → Option (JsNum × JsNum))
    (doc : XmlDoc) (op : String) (t : KV6MessageType) :
    ∀ e ∈ typeBlock conv doc op t, e.type = t := by
  intro e he
  by_cases h : tagOccurrences doc (typeName t) = [XmlValue.emptyText]
  · rw [typeBlock_eq_nil conv doc op t h] at he
    simp at he
  · rw [typeBlock_eq_map conv doc op t h] at he
    obtain ⟨v, _, rfl⟩ := List.mem_map.mp he
    exact normalizeMessage_type conv (toRawMessage v) t op

/-! Concrete fixtures used by counterexamples and witnesses. -/

/-- A raw message with no planar coordinates but a supplied occupancy. -/
def rawNoCoords : RawMessage :=
  { vehiclenumber := some "A", occupancy := some "3" }

/-- A raw message whose punctuality text is present but not numeric. -/
def rawBadPunct : RawMessage :=
  { vehiclenumber := some "A", punctuality := some "abc" }

/-- A raw message with coercible planar coordinates and a supplied occupancy. -/
def rawCoords : RawMessage :=
  { vehiclenumber := some "A", rd_x := some "1", rd_y := some "2",
    occupancy := some "3" }

/-- C10: for every event returned by the parser, latitude and longitude are
both present or both absent, occupancy is present only when both planar
coordinates were present and the conversion succeeded, and an event without
planar input coordinates never carries occupancy even if the raw message
supplied one. -/
theorem parser_latlong_paired_occupancy_gated
    (conv : JsNum → JsNum → Option (JsNum × JsNum)) (raw : RawMessage)
    (t : KV6MessageType) (op : String) :
    ((normalizeMessage conv raw t op).latitude = none ↔
      (normalizeMessage conv raw t op).longitude = none)
    ∧ ((normalizeMessage conv raw t op).occupancy.isSome →
        raw.rd_x.isSome ∧ raw.rd_y.isSome ∧
        ∃ p, conv (jsNumber (raw.rd_x.getD "")) (jsNumber (raw.rd_y.getD ""))
            = some p ∧
          (normalizeMessage conv raw t op).latitude = some p.1 ∧
          (normalizeMessage conv raw t op).longitude = some p.2)
    ∧ ((raw.rd_x = none ∨ raw.rd_y = none) →
        (normalizeMessage conv raw t op).occupancy = none) := by
  by_cases hxy : raw.rd_x.isSome ∧ raw.rd_y.isSome
  · obtain ⟨hx, hy⟩ := hxy
    cases hc : conv (jsNumber (raw.rd_x.getD "")) (jsNumber (raw.rd_y.getD ""))
      with
    | none =>
      rw [normalizeMessage_conv_error conv raw t op hx hy hc]
      refine ⟨by simp [baseUpdate], ?_, fun _ => by simp [baseUpdate]⟩
      intro h
      simp [baseUpdate] at h
    | some p =>
      rw [normalizeMessage_conv_ok conv raw t op p hx hy hc]
      refine ⟨by simp, ?_, ?_⟩
      · intro _
        exact ⟨hx, hy, p, rfl, by simp, by simp⟩
      · intro habs
        rcases habs with h | h
        · rw [h] at hx; simp at hx
        · rw [h] at hy; simp at hy
  · rw [normalizeMessage_no_coords conv raw t op hxy]
    exact ⟨by simp [baseUpdate], by simp [baseUpdate], fun _ => by
      simp [baseUpdate]⟩

/-- C10 witness: a concrete raw message with no planar coordinates but a
supplied occupancy yields an event without occupancy. -/
theorem parser_latlong_paired_occupancy_gated_witness :
    (rawNoCoords.rd_x = none ∨ rawNoCoords.rd_y = none) ∧
    (normalizeMessage convId rawNoCoords KV6MessageType.ONROUTE "ARR").occupancy
      = none :=
  ⟨Or.inl rfl,
    (parser_latlong_paired_occupancy_gated convId rawNoCoords
      KV6MessageType.ONROUTE "ARR").2.2 (Or.inl rfl)⟩

/-- C3 counterexample: a punctuality field present as the non-numeric text
abc fails coercion, yet the emitted event carries the field with value NaN
instead of treating it as absent. -/
theorem parser_coercion_failure_cx :
    jsNumber "abc" = JsNum.nan
    ∧ (normalizeMessage convNone rawBadPunct KV6MessageType.ONROUTE
        "ARR").punctuality = some JsNum.nan
    ∧ some JsNum.nan ≠ (none : Option JsNum) := by decide

/-- A raw message whose rd_x is present as the empty string. -/
def rawEmptyRd : RawMessage :=
  { vehiclenumber := some "A", rd_x := some "", rd_y := some "7" }

/-- C3 amended: a failing coercion is never an error and the event is always
emitted (with the given type and operator), but the fields are not uniformly
treated as absent. Punctuality absent or empty is omitted, while present
non-empty punctuality text is kept as its numeric coercion, NaN when coercion
fails. Occupancy obeys the same truthiness-then-coerce rule, but only inside
the coordinate-conversion success branch; whenever a planar coordinate is
absent, occupancy (and the geographic coordinates) are absent regardless of
the raw occupancy text. The planar coordinates themselves are gated on
presence, not truthiness: any present text, even empty (which coerces to 0)
or non-numeric (which coerces to NaN), is coerced and handed to the
transformer, and the event carries geographic coordinates exactly when the
transformer succeeds, falling back to the base record when it reports an
error. -/
theorem parser_coercion_amended
    (conv : JsNum → JsNum → Option (JsNum × JsNum)) (raw : RawMessage)
    (t : KV6MessageType) (op : String) :
    ((normalizeMessage conv raw t op).type = t
      ∧ (normalizeMessage conv raw t op).operator = op)
    ∧ (((raw.punctuality = none ∨ raw.punctuality = some "") →
        (normalizeMessage conv raw t op).punctuality = none)
      ∧ ∀ s, raw.punctuality = some s → s ≠ "" →
          (normalizeMessage conv raw t op).punctuality = some (jsNumber s))
    ∧ (∀ sx sy p, raw.rd_x = some sx → raw.rd_y = some sy →
        conv (jsNumber sx) (jsNumber sy) = some p →
        (((raw.occupancy = none ∨ raw.occupancy = some "") →
            (normalizeMessage conv raw t op).occupancy = none)
          ∧ ∀ s, raw.occupancy = some s → s ≠ "" →
              (normalizeMessage conv raw t op).occupancy = some (jsNumber s)))
    ∧ ((raw.rd_x = none ∨ raw.rd_y = none) →
        (normalizeMessage conv raw t op).occupancy = none
        ∧ (normalizeMessage conv raw t op).latitude = none
        ∧ (normalizeMessage conv raw t op).longitude = none)
    ∧ (∀ sx sy, raw.rd_x = some sx → raw.rd_y = some sy →
        ((conv (jsNumber sx) (jsNumber sy) = none →
            normalizeMessage conv raw t op = baseUpdate raw t op)
          ∧ ∀ p, conv (jsNumber sx) (jsNumber sy) = some p →
              (normalizeMessage conv raw t op).latitude = some p.1
              ∧ (normalizeMessage conv raw t op).longitude = some p.2)) := by
  refine ⟨⟨normalizeMessage_type conv raw t op,
    normalizeMessage_operator conv raw t op⟩, ⟨?_, ?_⟩, ?_, ?_, ?_⟩
  · intro h
    rw [normalizeMessage_punctuality]
    rcases h with h | h <;> simp [baseUpdate, strTruthy, h]
  · intro s hs hne
    rw [normalizeMessage_punctuality]
    simp [baseUpdate, strTruthy, hs, hne]
  · intro sx sy p hx hy hc
    have hx' : raw.rd_x.isSome := by rw [hx]; rfl
    have hy' : raw.rd_y.isSome := by rw [hy]; rfl
    have hc' : conv (jsNumber (raw.rd_x.getD ""))
        (jsNumber (raw.rd_y.getD "")) = some p := by
      rw [hx, hy]
      exact hc
    rw [normalizeMessage_conv_ok conv raw t op p hx' hy' hc']
    constructor
    · intro h
      rcases h with h | h <;> simp [strTruthy, h]
    · intro s hs hne
      simp [strTruthy, hs, hne]
  · intro h
    have hxy : ¬(raw.rd_x.isSome ∧ raw.rd_y.isSome) := by
      rcases h with h | h <;> rw [h] <;> simp
    rw [normalizeMessage_no_coords conv raw t op hxy]
    exact ⟨rfl, rfl, rfl⟩
  · intro sx sy hx hy
    have hx' : raw.rd_x.isSome := by rw [hx]; rfl
    have hy' : raw.rd_y.isSome := by rw [hy]; rfl
    constructor
    · intro hcnone
      have hc' : conv (jsNumber (raw.rd_x.getD ""))
          (jsNumber (raw.rd_y.getD "")) = none := by
        rw [hx, hy]
        exact hcnone
      exact normalizeMessage_conv_error conv raw t op hx' hy' hc'
    · intro p hcp
      have hc' : conv (jsNumber (raw.rd_x.getD ""))
          (jsNumber (raw.rd_y.getD "")) = some p := by
        rw [hx, hy]
        exact hcp
      rw [normalizeMessage_conv_ok conv raw t op p hx' hy' hc']
      exact ⟨rfl, rfl⟩

/-- C3 amended witness: the non-numeric punctuality text abc is kept as NaN;
an occupancy of 3 survives in the conversion-success branch; an empty-string
rd_x is not treated as absent but coerced to 0 and converted. -/
theorem parser_coercion_amended_witness :
    (rawBadPunct.punctuality = some "abc"
      ∧ (normalizeMessage convNone rawBadPunct KV6MessageType.ONROUTE
          "ARR").punctuality = some (jsNumber "abc"))
    ∧ (rawCoords.occupancy = some "3"
      ∧ (normalizeMessage convId rawCoords KV6MessageType.ONROUTE
          "ARR").occupancy = some (jsNumber "3"))
    ∧ (rawEmptyRd.rd_x = some ""
      ∧ (normalizeMessage convId rawEmptyRd KV6MessageType.ONROUTE
          "ARR").latitude = some (jsNumber "")) :=
  ⟨⟨rfl,
    (parser_coercion_amended convNone rawBadPunct KV6MessageType.ONROUTE
      "ARR").2.1.2 "abc" rfl (by decide)⟩,
   ⟨rfl,
    ((parser_coercion_amended convId rawCoords KV6MessageType.ONROUTE
        "ARR").2.2.1 "1" "2" (jsNumber "1", jsNumber "2") rfl rfl rfl).2
      "3" rfl (by decide)⟩,
   ⟨rfl,
    ((((parser_coercion_amended convId rawEmptyRd KV6MessageType.ONROUTE
        "ARR").2.2.2.2 "" "7" rfl rfl).2 (jsNumber "", jsNumber "7"))
      rfl).1⟩⟩

/-- C4 counterexample: on a conversion domain error the emitted event is not
the success event with only latitude/longitude removed, because occupancy is
dropped as well, even though the raw message supplied occupancy 3. -/
theorem parser_conv_error_cx :
    (normalizeMessage convNone rawCoords KV6MessageType.ONROUTE
      "ARR").occupancy = none
    ∧ (normalizeMessage convId rawCoords KV6MessageType.ONROUTE
        "ARR").occupancy = some (JsNum.num 3)
    ∧ normalizeMessage convNone rawCoords KV6MessageType.ONROUTE "ARR"
        ≠ { normalizeMessage convId rawCoords KV6MessageType.ONROUTE "ARR"
            with latitude := none, longitude := none } := by decide

/-- C4 amended: when both planar fields are present and coerce successfully
but the transformer reports a domain error, the event is still emitted and
equals the event a succeeding transformer would produce with latitude,
longitude AND occupancy removed: geographic coordinates and occupancy are
absent on the error path, while the base fields are carried unchanged. -/
theorem parser_conv_error_amended
    (conv : JsNum → JsNum → Option (JsNum × JsNum)) (raw : RawMessage)
    (t : KV6MessageType) (op : String) (sx sy : String)
    (hx : raw.rd_x = some sx) (hy : raw.rd_y = some sy)
    (hnx : jsNumber sx ≠ JsNum.nan) (hny : jsNumber sy ≠ JsNum.nan)
    (hc : conv (jsNumber sx) (jsNumber sy) = none) :
    normalizeMessage conv raw t op = baseUpdate raw t op
    ∧ (normalizeMessage conv raw t op).latitude = none
    ∧ (normalizeMessage conv raw t op).longitude = none
    ∧ (normalizeMessage conv raw t op).occupancy = none
    ∧ ∀ (conv' : JsNum → JsNum → Option (JsNum × JsNum)) (p : JsNum × JsNum),
        conv' (jsNumber sx) (jsNumber sy) = some p →
        normalizeMessage conv raw t op =
          { normalizeMessage conv' raw t op with
            latitude := none, longitude := none, occupancy := none } := by
  have hx' : raw.rd_x.isSome := by rw [hx]; rfl
  have hy' : raw.rd_y.isSome := by rw [hy]; rfl
  have hgx : raw.rd_x.getD "" = sx := by rw [hx]; rfl
  have hgy : raw.rd_y.getD "" = sy := by rw [hy]; rfl
  have hc' : conv (jsNumber (raw.rd_x.getD "")) (jsNumber (raw.rd_y.getD ""))
      = none := by rw [hgx, hgy]; exact hc
  have hbase := normalizeMessage_conv_error conv raw t op hx' hy' hc'
  refine ⟨hbase, by rw [hbase]; rfl, by rw [hbase]; rfl, by rw [hbase]; rfl,
    ?_⟩
  intro conv' p hp
  have hp' : conv' (jsNumber (raw.rd_x.getD "")) (jsNumber (raw.rd_y.getD ""))
      = some p := by rw [hgx, hgy]; exact hp
  rw [hbase, normalizeMessage_conv_ok conv' raw t op p hx' hy' hp']
  rfl

/-- C4 amended witness: the concrete raw message with coordinates 1, 2 and
occupancy 3 under the always-failing transformer produces exactly the base
event, equal to the always-succeeding transformer's event stripped of
latitude, longitude and occupancy. -/
theorem parser_conv_error_amended_witness :
    rawCoords.rd_x = some "1" ∧ rawCoords.rd_y = some "2"
    ∧ jsNumber "1" ≠ JsNum.nan ∧ jsNumber "2" ≠ JsNum.nan
    ∧ convNone (jsNumber "1") (jsNumber "2") = none
    ∧ (normalizeMessage convNone rawCoords KV6MessageType.ONROUTE "ARR"
        = baseUpdate rawCoords KV6MessageType.ONROUTE "ARR"
      ∧ (normalizeMessage convNone rawCoords KV6MessageType.ONROUTE
          "ARR").latitude = none
      ∧ (normalizeMessage convNone rawCoords KV6MessageType.ONROUTE
          "ARR").longitude = none
      ∧ (normalizeMessage convNone rawCoords KV6MessageType.ONROUTE
          "ARR").occupancy = none
      ∧ ∀ (conv' : JsNum → JsNum → Option (JsNum × JsNum))
          (p : JsNum × JsNum),
          conv' (jsNumber "1") (jsNumber "2") = some p →
          normalizeMessage convNone rawCoords KV6MessageType.ONROUTE "ARR" =
            { normalizeMessage conv' rawCoords KV6MessageType.ONROUTE "ARR"
              with latitude := none, longitude := none, occupancy := none }) :=
  ⟨rfl, rfl, by decide, by decide, rfl,
    parser_conv_error_amended convNone rawCoords KV6MessageType.ONROUTE "ARR"
      "1" "2" rfl rfl (by decide) (by decide) rfl⟩

/-- C6: the content decoder is total: for every byte buffer and every
behaviour of the decompression oracles, decodeContent returns a string and
never propagates an exception, because the outer catch falls back to the
total latin1 decoding. -/
theorem decodeContent_total (gz infl : ByteBuf → Except String ByteBuf)
    (utf8D asciiD : ByteBuf → List Char) (buffer : ByteBuf) :
    ∃ s, decodeContent gz infl utf8D asciiD buffer = Except.ok s := by
  unfold decodeContent
  cases h : decodeBody gz infl utf8D asciiD buffer with
  | error e => exact ⟨latin1Decode buffer, rfl⟩
  | ok s => exact ⟨s, rfl⟩

/-- C5 counterexample: with two subscribers registered in order, the first
raising and the second well-behaved, the event-bus emit propagates the first
subscriber's exception, so the publish call fails and the second subscriber
is never delivered to. -/
theorem emit_propagates_cx :
    emitToListeners [⟨0, true⟩, ⟨1, false⟩] = Except.error 0
    ∧ Except.error 0 ≠ (Except.ok [0, 1] : Except Nat (List Nat)) :=
  ⟨rfl, fun h => Except.noConfusion h⟩

/-- C5 amended: per-subscriber failure isolation holds for the SSE broadcast
but not for the in-process event bus: broadcastSSE attempts every client
write under an individual catch, so every non-raising client receives the
event in registration order regardless of earlier failures, the raising
clients are exactly the ones recorded as disconnected, and the call always
returns instead of propagating. -/
theorem broadcastSSE_isolates (clients : List Subscriber) :
    (broadcastSSE clients).1
      = (clients.filter (fun c => !c.raises)).map Subscriber.id
    ∧ (broadcastSSE clients).2
      = (clients.filter (fun c => c.raises)).map Subscriber.id := by
  induction clients with
  | nil => exact ⟨rfl, rfl⟩
  | cons c rest ih =>
    cases hr : c.raises <;>
      simp [broadcastSSE, writeClient, hr, ih.1, ih.2]

/-- Fixture event A: sets stopCode X for vehicle V1. -/
def evA : KV6Update :=
  { operator := "ARR", type := KV6MessageType.ONROUTE, journeyNumber := none,
    vehicleNumber := some "V1", lineNumber := some "L1",
    timestamp := some "t1", stopCode := some "X", latitude := none,
    longitude := none, punctuality := none, occupancy := none }

/-- Fixture event B: same vehicle, later timestamp, stopCode present but
empty (a present field that is falsy). -/
def evB : KV6Update :=
  { evA with
    type := KV6MessageType.ARRIVAL
    timestamp := some "t2"
    stopCode := some "" }

/-- The stored state after applying event A to an empty store. -/
def stA : VehicleState :=
  { vehicleNumber := "V1", lineNumber := "L1",
    status := KV6MessageType.ONROUTE, stopCode := some "X",
    lastUpdated := some "t1" }

/-- C1 counterexample: event B carries stopCode present (the empty string),
yet applying it to a store holding stopCode X for the same vehicle leaves X
in place, so a present field does not always overwrite the stored field. -/
theorem store_merge_cx :
    evB.stopCode = some ""
    ∧ (mapGet (updateVehicle (updateVehicle [] evA) evB) "V1").map
        VehicleState.stopCode = some (some "X")
    ∧ some "X" ≠ evB.stopCode := by decide

/-- C1 amended: for an update on an existing vehicle id, status and
lastUpdated are always set from the incoming event; stopCode, latitude,
longitude and lineNumber overwrite the stored field only when present AND
truthy (non-empty string, non-zero non-NaN number), otherwise the stored
value is kept (in particular an absent stopCode leaves a stored stopCode
intact); occupancy and punctuality overwrite exactly when present. -/
theorem store_merge_amended (m : VehicleMap) (u : KV6Update)
    (st : VehicleState)
    (hv : strTruthy u.vehicleNumber = true)
    (hst : mapGet m (u.vehicleNumber.getD "") = some st) :
    ∃ st', mapGet (updateVehicle m u) (u.vehicleNumber.getD "") = some st'
      ∧ st'.status = u.type
      ∧ st'.lastUpdated = u.timestamp
      ∧ st'.stopCode
          = (if strTruthy u.stopCode then u.stopCode else st.stopCode)
      ∧ st'.latitude
          = (if numTruthy u.latitude then u.latitude else st.latitude)
      ∧ st'.longitude
          = (if numTruthy u.longitude then u.longitude else st.longitude)
      ∧ st'.occupancy
          = (if u.occupancy.isSome then u.occupancy else st.occupancy)
      ∧ st'.punctuality
          = (if u.punctuality.isSome then u.punctuality else st.punctuality)
      ∧ st'.lineNumber
          = (if strTruthy u.lineNumber then u.lineNumber.getD ""
            else st.lineNumber) := by
  unfold updateVehicle
  rw [hv]
  simp only [Bool.true_eq_false, if_false, hst]
  exact ⟨_, mapGet_mapSet_self m (u.vehicleNumber.getD "") _, rfl, rfl, rfl,
    rfl, rfl, rfl, rfl, rfl⟩

/-- C1 amended witness: event A stores stopCode X; event B (stopCode present
but empty) keeps X while status and lastUpdated move to B's values. -/
theorem store_merge_amended_witness :
    strTruthy evB.vehicleNumber = true
    ∧ mapGet (updateVehicle [] evA) (evB.vehicleNumber.getD "") = some stA
    ∧ (∃ st', mapGet (updateVehicle (updateVehicle [] evA) evB)
          (evB.vehicleNumber.getD "") = some st'
        ∧ st'.status = evB.type
        ∧ st'.lastUpdated = evB.timestamp
        ∧ st'.stopCode
            = (if strTruthy evB.stopCode then evB.stopCode else stA.stopCode)
        ∧ st'.latitude
            = (if numTruthy evB.latitude then evB.latitude else stA.latitude)
        ∧ st'.longitude
            = (if numTruthy evB.longitude then evB.longitude
              else stA.longitude)
        ∧ st'.occupancy
            = (if evB.occupancy.isSome then evB.occupancy else stA.occupancy)
        ∧ st'.punctuality
            = (if evB.punctuality.isSome then evB.punctuality
              else stA.punctuality)
        ∧ st'.lineNumber
            = (if strTruthy evB.lineNumber then evB.lineNumber.getD ""
              else stA.lineNumber)) :=
  ⟨by decide, by decide,
    store_merge_amended (updateVehicle [] evA) evB stA (by decide)
      (by decide)⟩

/-- A raw ARRIVAL message carrying coordinates and occupancy text 6. -/
def rawOcc6 : RawMessage :=
  { vehiclenumber := some "A", rd_x := some "1", rd_y := some "2",
    occupancy := some "6" }

/-- A one-element document holding the occupancy-6 ARRIVAL message. -/
def docOcc6 : XmlDoc := [("ARRIVAL", XmlValue.record rawOcc6)]

/-- C8 counterexample: a raw occupancy of 6 flows through the parser
unchecked, so the emitted event carries occupancy 6, which is outside the
claimed range 0..5. -/
theorem occupancy_range_cx :
    (parseXml convId docOcc6 "ARR").map KV6Update.occupancy
      = [some (JsNum.num 6)]
    ∧ ¬((6 : Int) ≤ 5) := by decide

/-- C8 amended: every event emitted by the parser has its type in the fixed
closed set of nine event types, but the occupancy field is not constrained to
0..5: when present it is exactly the numeric coercion of the raw occupancy
text, whatever its value. -/
theorem parser_type_closed_occupancy_unchecked :
    (∀ (conv : JsNum → JsNum → Option (JsNum × JsNum)) (doc : XmlDoc)
        (op : String) (e : KV6Update),
      e ∈ parseXml conv doc op → e.type ∈ typeList)
    ∧ (∀ (conv : JsNum → JsNum → Option (JsNum × JsNum)) (raw : RawMessage)
        (t : KV6MessageType) (op : String) (s : String) (p : JsNum × JsNum),
      raw.rd_x.isSome → raw.rd_y.isSome →
      conv (jsNumber (raw.rd_x.getD "")) (jsNumber (raw.rd_y.getD ""))
        = some p →
      raw.occupancy = some s → s ≠ "" →
      (normalizeMessage conv raw t op).occupancy = some (jsNumber s)) := by
  constructor
  · intro conv doc op e he
    unfold parseXml at he
    rw [List.mem_flatMap] at he
    obtain ⟨t, ht, he⟩ := he
    rw [typeBlock_type_eq conv doc op t e he]
    exact ht
  · intro conv raw t op s p hx hy hc hocc hne
    rw [normalizeMessage_conv_ok conv raw t op p hx hy hc]
    simp [strTruthy, hocc, hne]

/-- C8 amended witness: the occupancy-6 event is among the parsed events and
its type lies in the fixed set. -/
theorem parser_type_closed_occupancy_unchecked_witness :
    normalizeMessage convId rawOcc6 KV6MessageType.ARRIVAL "ARR"
      ∈ parseXml convId docOcc6 "ARR"
    ∧ (normalizeMessage convId rawOcc6 KV6MessageType.ARRIVAL "ARR").type
      ∈ typeList :=
  ⟨by decide,
    parser_type_closed_occupancy_unchecked.1 convId docOcc6 "ARR"
      (normalizeMessage convId rawOcc6 KV6MessageType.ARRIVAL "ARR")
      (by decide)⟩

lemma countStep_total (acc : StatusCounts) (kv : String × VehicleState) :
    (countStep acc kv).total = acc.total := by
  unfold countStep
  by_cases hm : kv.2.status ∈ activeStatuses <;> simp [hm]

lemma countStep_active (acc : StatusCounts) (kv : String × VehicleState) :
    (countStep acc kv).active
      = acc.active + (if kv.2.status ∈ activeStatuses then 1 else 0) := by
  unfold countStep
  by_cases hm : kv.2.status ∈ activeStatuses <;> simp [hm]

lemma countStep_perStatus (acc : StatusCounts) (kv : String × VehicleState)
    (s : KV6MessageType) :
    (countStep acc kv).perStatus s
      = acc.perStatus s + (if s = kv.2.status then 1 else 0) := by
  unfold countStep
  by_cases hm : kv.2.status ∈ activeStatuses <;>
    by_cases hs : s = kv.2.status <;> simp [hm, hs]

/-- Accumulated-counter characterization of the getStatusCounts fold. -/
lemma foldl_countStep (l : List (String × VehicleState)) :
    ∀ acc : StatusCounts,
      (l.foldl countStep acc).total = acc.total
      ∧ (l.foldl countStep acc).active
          = acc.active
            + l.countP (fun kv => decide (kv.2.status ∈ activeStatuses))
      ∧ ∀ s, (l.foldl countStep acc).perStatus s
          = acc.perStatus s + l.countP (fun kv => kv.2.status == s) := by
  induction l with
  | nil => intro acc; exact ⟨rfl, by simp, fun s => by simp⟩
  | cons kv rest ih =>
    intro acc
    have h := ih (countStep acc kv)
    refine ⟨?_, ?_, ?_⟩
    · rw [List.foldl_cons, h.1, countStep_total]
    · rw [List.foldl_cons, h.2.1, countStep_active, List.countP_cons]
      by_cases hm : kv.2.status ∈ activeStatuses <;> simp [hm] <;> omega
    · intro s
      simp only [List.foldl_cons, List.countP_cons]
      rw [h.2.2 s, countStep_perStatus]
      have heq : (if (kv.2.status == s) = true then 1 else 0)
          = (if s = kv.2.status then (1 : Nat) else 0) := by
        by_cases hs : s = kv.2.status
        · subst hs; simp
        · have hn : ¬ kv.2.status = s := fun hcontra => hs hcontra.symm
          simp [hs, hn]
      rw [heq]
      omega

/-- An event fixture for the status-count example: vehicle vn with status t
and the identifying fields filled in. -/
def mkEv (vn : String) (t : KV6MessageType) : KV6Update :=
  { operator := "ARR", type := t, journeyNumber := none,
    vehicleNumber := some vn, lineNumber := some "L", timestamp := some "t",
    stopCode := none, latitude := none, longitude := none,
    punctuality := none, occupancy := none }

/-- Four vehicles inserted into an empty store with statuses ARRIVAL, INIT,
DEPARTURE, END. -/
def demoStore : VehicleMap :=
  updateVehicle
    (updateVehicle
      (updateVehicle
        (updateVehicle [] (mkEv "V1" KV6MessageType.ARRIVAL))
        (mkEv "V2" KV6MessageType.INIT))
      (mkEv "V3" KV6MessageType.DEPARTURE))
    (mkEv "V4" KV6MessageType.END)

/-- C9: getStatusCounts reports the number of stored entries as total, the
number of entries whose status is ARRIVAL, DEPARTURE, ONROUTE or ONSTOP as
active, and one counter per status value; in particular inserting vehicles
with statuses ARRIVAL, INIT, DEPARTURE, END into an empty store gives
active 2 and total 4. -/
theorem statusCounts_spec :
    (∀ v : VehicleMap,
      (getStatusCounts v).total = v.length
      ∧ (getStatusCounts v).active
          = v.countP (fun kv => decide (kv.2.status ∈ activeStatuses))
      ∧ ∀ s, (getStatusCounts v).perStatus s
          = v.countP (fun kv => kv.2.status == s))
    ∧ (getStatusCounts demoStore).active = 2
    ∧ (getStatusCounts demoStore).total = 4 := by
  refine ⟨?_, by decide, by decide⟩
  intro v
  have h := foldl_countStep v
    { total := v.length, active := 0, perStatus := fun _ => 0 }
  unfold getStatusCounts
  exact ⟨h.1, by rw [h.2.1]; simp, fun s => by rw [h.2.2 s]; simp⟩

lemma sum_map_add {α : Type} (l : List α) (f g : α → Nat) :
    (l.map (fun x => f x + g x)).sum = (l.map f).sum + (l.map g).sum := by
  induction l with
  | nil => rfl
  | cons a t ih =>
    simp only [List.map_cons, List.sum_cons, ih]
    omega

lemma indicator_sum (names : List String) (s : String) (hnd : names.Nodup) :
    (names.map (fun n => if s == n then (1 : Nat) else 0)).sum
      = if s ∈ names then 1 else 0 := by
  induction names with
  | nil => rfl
  | cons n rest ih =>
    obtain ⟨hn, hrest⟩ := List.nodup_cons.mp hnd
    rw [List.map_cons, List.sum_cons, ih hrest]
    by_cases hs : s = n
    · subst hs
      simp [hn]
    · simp [hs]

lemma countP_mem_eq_sum (names : List String) (hnd : names.Nodup)
    (doc : XmlDoc) :
    (names.map (fun n => doc.countP (fun c => c.1 == n))).sum
      = doc.countP (fun c => decide (c.1 ∈ names)) := by
  induction doc with
  | nil => simp
  | cons c rest ih =>
    simp only [List.countP_cons, decide_eq_true_eq]
    rw [sum_map_add, ih]
    have hind := indicator_sum names c.1 hnd
    by_cases hm : c.1 ∈ names
    · simp only [hm, if_true] at hind ⊢
      rw [hind]
    · simp only [hm, if_false] at hind ⊢
      rw [hind]

lemma mem_typeList (t : KV6MessageType) : t ∈ typeList := by
  cases t <;> simp [typeList]

lemma filter_type_blocks (conv : JsNum → JsNum → Option (JsNum × JsNum))
    (op : String) (doc : XmlDoc) (t : KV6MessageType) :
    ∀ l : List KV6MessageType, l.Nodup →
      ((l.flatMap fun t' => typeBlock conv doc op t').filter
        (fun e => e.type == t))
      = if t ∈ l then typeBlock conv doc op t else [] := by
  intro l
  induction l with
  | nil => intro _; simp
  | cons a rest ih =>
    intro hnd
    obtain ⟨ha, hnd'⟩ := List.nodup_cons.mp hnd
    rw [List.flatMap_cons, List.filter_append, ih hnd']
    have hblock : (typeBlock conv doc op a).filter (fun e => e.type == t)
        = if a = t then typeBlock conv doc op a else [] := by
      by_cases hat : a = t
      · subst hat
        rw [if_pos rfl]
        apply List.filter_eq_self.mpr
        intro e he
        simp [typeBlock_type_eq conv doc op a e he]
      · rw [if_neg hat]
        apply List.filter_eq_nil.mpr
        intro e he
        simp [typeBlock_type_eq conv doc op a e he, hat]
    rw [hblock]
    by_cases hat : a = t
    · subst hat
      rw [if_pos rfl, if_pos (List.mem_cons_self a rest), if_neg ha,
        List.append_nil]
    · rw [if_neg hat]
      by_cases hl : t ∈ rest
      · rw [if_pos hl, if_pos (List.mem_cons_of_mem a hl), List.nil_append]
      · rw [if_neg hl, if_neg ?_, List.append_nil]
        intro hc
        rcases List.mem_cons.mp hc with h | h
        · exact hat h.symm
        · exact hl h

/-- Two distinguishable raw messages for the ordering counterexample. -/
def rawMsgA : RawMessage := { vehiclenumber := some "A" }

/-- Second raw message for the ordering counterexample. -/
def rawMsgB : RawMessage := { vehiclenumber := some "B" }

/-- A document whose root holds a DEPARTURE element before an ARRIVAL
element. -/
def docTwo : XmlDoc :=
  [("DEPARTURE", XmlValue.record rawMsgA),
   ("ARRIVAL", XmlValue.record rawMsgB)]

/-- A document whose sole recognized element collapsed to the empty string
(childless or whitespace-only ARRIVAL). -/
def docEmptyArr : XmlDoc := [("ARRIVAL", XmlValue.emptyText)]

/-- C2 counterexample: a document with a DEPARTURE element followed by an
ARRIVAL element yields its two events with the ARRIVAL first, because the
parser walks tags in enum-declaration order, so the output is not in document
order. -/
theorem parse_order_cx :
    docTwo.map Prod.fst = ["DEPARTURE", "ARRIVAL"]
    ∧ (parseXml convNone docTwo "ARR").map KV6Update.type
        = [KV6MessageType.ARRIVAL, KV6MessageType.DEPARTURE]
    ∧ parseXml convNone docTwo "ARR"
        ≠ [normalizeMessage convNone rawMsgA KV6MessageType.DEPARTURE "ARR",
           normalizeMessage convNone rawMsgB KV6MessageType.ARRIVAL "ARR"] := by
  decide

/-- C2 amended: the parser emits one event per recognized element occurrence
EXCEPT that a recognized tag whose sole occurrence collapsed to the empty
string is skipped by the truthiness guard and yields none; when no recognized
tag is in that state the count is exactly N, the number of recognized
occurrences. The events are ordered by event type in the fixed declaration
order, with document order preserved only within each type: the events of
type t are exactly the occurrences of tag t in document order (none when the
guard skipped that tag). -/
theorem parseXml_count_and_grouping
    (conv : JsNum → JsNum → Option (JsNum × JsNum)) (doc : XmlDoc)
    (op : String) :
    ((∀ t : KV6MessageType,
        tagOccurrences doc (typeName t) ≠ [XmlValue.emptyText]) →
      (parseXml conv doc op).length
        = (doc.filter (fun c => decide (c.1 ∈ recognizedTags))).length)
    ∧ (∀ t, tagOccurrences doc (typeName t) = [XmlValue.emptyText] →
        (parseXml conv doc op).filter (fun e => e.type == t) = [])
    ∧ (∀ t, tagOccurrences doc (typeName t) ≠ [XmlValue.emptyText] →
        (parseXml conv doc op).filter (fun e => e.type == t)
          = (tagOccurrences doc (typeName t)).map
              (fun v => normalizeMessage conv (toRawMessage v) t op)) := by
  refine ⟨?_, ?_, ?_⟩
  · intro hgate
    unfold parseXml recognizedTags
    rw [List.length_flatMap]
    have h2 : (typeList.map
        (List.length ∘ fun t => typeBlock conv doc op t)).sum
      = ((typeList.map typeName).map
          (fun n => doc.countP (fun c => c.1 == n))).sum := by
      rw [List.map_map]
      congr 1
      apply List.map_congr_left
      intro t _
      simp only [Function.comp_apply]
      rw [typeBlock_eq_map conv doc op t (hgate t), List.length_map]
      unfold tagOccurrences
      rw [List.length_map, ← List.countP_eq_length_filter]
    rw [h2, countP_mem_eq_sum (typeList.map typeName) (by decide) doc,
      List.countP_eq_length_filter]
  · intro t heq
    unfold parseXml
    rw [filter_type_blocks conv op doc t typeList (by decide),
      if_pos (mem_typeList t), typeBlock_eq_nil conv doc op t heq]
  · intro t hne
    unfold parseXml
    rw [filter_type_blocks conv op doc t typeList (by decide),
      if_pos (mem_typeList t), typeBlock_eq_map conv doc op t hne]

/-- C2 amended witness: on the two-element document every recognized tag
escapes the guard and the count equals the two recognized occurrences, while
on the document whose sole ARRIVAL collapsed to the empty string the guard
yields no ARRIVAL events. -/
theorem parseXml_count_and_grouping_witness :
    (∀ t : KV6MessageType,
      tagOccurrences docTwo (typeName t) ≠ [XmlValue.emptyText])
    ∧ (parseXml convNone docTwo "ARR").length
        = (docTwo.filter (fun c => decide (c.1 ∈ recognizedTags))).length
    ∧ tagOccurrences docEmptyArr (typeName KV6MessageType.ARRIVAL)
        = [XmlValue.emptyText]
    ∧ (parseXml convNone docEmptyArr "ARR").filter
        (fun e => e.type == KV6MessageType.ARRIVAL) = [] :=
  ⟨by intro t; cases t <;> decide,
   (parseXml_count_and_grouping convNone docTwo "ARR").1
     (by intro t; cases t <;> decide),
   by decide,
   (parseXml_count_and_grouping convNone docEmptyArr "ARR").2.1
     KV6MessageType.ARRIVAL (by decide)⟩

lemma idxFrom_ge (pat : List Char) :
    ∀ (text : List Char) (i j : Nat), idxFrom pat text i = some j → i ≤ j := by
  intro text
  induction text with
  | nil =>
    intro i j h
    by_cases hl : leadsWith pat [] = true <;> simp [idxFrom, hl] at h
    omega
  | cons c rest ih =>
    intro i j h
    by_cases hl : leadsWith pat (c :: rest) = true <;>
      simp [idxFrom, hl] at h
    · omega
    · have := ih (i + 1) j h
      omega

lemma idxFrom_occurs (pat : List Char) :
    ∀ (text : List Char) (i j : Nat), idxFrom pat text i = some j →
      leadsWith pat (text.drop (j - i)) = true := by
  intro text
  induction text with
  | nil =>
    intro i j h
    by_cases hl : leadsWith pat [] = true <;> simp [idxFrom, hl] at h
    simp [← h, hl]
  | cons c rest ih =>
    intro i j h
    by_cases hl : leadsWith pat (c :: rest) = true <;>
      simp [idxFrom, hl] at h
    · simp [← h, hl]
    · have hge := idxFrom_ge pat rest (i + 1) j h
      have hrec := ih (i + 1) j h
      have hd : (c :: rest).drop (j - i) = rest.drop (j - (i + 1)) := by
        have h1 : j - i = (j - (i + 1)) + 1 := by omega
        rw [h1, List.drop_succ_cons]
      rw [hd]
      exact hrec

lemma jsIndexOf_of_idxFrom (text pat : List Char) (j : Nat)
    (h : idxFrom pat text 0 = some j) : jsIndexOf text pat = (j : Int) := by
  unfold jsIndexOf
  rw [h]

lemma marker_win (text pat : List Char)
    (hw : xmlStartIndex text = jsIndexOf text pat)
    (hmax0 : 0 ≤ xmlStartIndex text) :
    leadsWith pat (text.drop (xmlStartIndex text).toNat) = true := by
  cases hi : idxFrom pat text 0 with
  | none =>
    have hneg : jsIndexOf text pat = -1 := by unfold jsIndexOf; rw [hi]
    rw [hw, hneg] at hmax0
    exact absurd hmax0 (by norm_num)
  | some j =>
    have hj := jsIndexOf_of_idxFrom text pat j hi
    have hJ : (xmlStartIndex text).toNat = j := by
      rw [hw, hj]
      omega
    rw [hJ]
    have hocc := idxFrom_occurs pat text 0 j hi
    simpa using hocc

lemma marker_bound (text pat : List Char)
    (hmax0 : 0 ≤ xmlStartIndex text)
    (hle : jsIndexOf text pat ≤ xmlStartIndex text) :
    ∀ j, idxFrom pat text 0 = some j → j ≤ (xmlStartIndex text).toNat := by
  intro j hj
  have h1 : (j : Int) ≤ xmlStartIndex text := by
    rw [← jsIndexOf_of_idxFrom text pat j hj]
    exact hle
  omega

lemma jsIndexOf_le_start_decl (text : List Char) :
    jsIndexOf text xmlDeclMarker ≤ xmlStartIndex text :=
  le_max_left _ _

lemma jsIndexOf_le_start_push (text : List Char) :
    jsIndexOf text vvTmPushMarker ≤ xmlStartIndex text :=
  le_trans (le_max_left _ _) (le_max_right _ _)

lemma jsIndexOf_le_start_posinfo (text : List Char) :
    jsIndexOf text kv6posinfoMarker ≤ xmlStartIndex text :=
  le_trans (le_max_right _ _) (le_max_right _ _)

/-- The fallback-scan sample text: the XML declaration marker at index 0,
the envelope marker at index 5. -/
def sampleFallbackText : List Char := "<?xml<VV_TM_PUSH".data

/-- C7 counterexample: on text holding the declaration marker at index 0 and
the envelope marker at index 5, the fallback scan returns the substring from
index 5, not the substring from the earliest marker occurrence at index 0
(which would be the whole text), because the scan takes Math.max of the
indexOf results. -/
theorem fallback_scan_cx :
    idxFrom xmlDeclMarker sampleFallbackText 0 = some 0
    ∧ fallbackExtract sampleFallbackText = some (sampleFallbackText.drop 5)
    ∧ fallbackExtract sampleFallbackText ≠ some sampleFallbackText := by
  decide

/-- C7 amended: when the latin1 fallback text contains at least one
recognized marker, the scan returns the substring of the text starting at
the LARGEST of the markers' first-occurrence indices (absent markers,
reported as -1, never win): some marker occurs at the chosen index, and
every marker's first occurrence is at or before it. -/
theorem fallback_scan_amended (text : List Char)
    (h : looksLikeXml text = true) :
    ∃ J : Nat, fallbackExtract text = some (text.drop J)
      ∧ (J : Int) = xmlStartIndex text
      ∧ (leadsWith xmlDeclMarker (text.drop J) = true
        ∨ leadsWith vvTmPushMarker (text.drop J) = true
        ∨ leadsWith kv6posinfoMarker (text.drop J) = true)
      ∧ (∀ j, idxFrom xmlDeclMarker text 0 = some j → j ≤ J)
      ∧ (∀ j, idxFrom vvTmPushMarker text 0 = some j → j ≤ J)
      ∧ (∀ j, idxFrom kv6posinfoMarker text 0 = some j → j ≤ J) := by
  have hmax0 : 0 ≤ xmlStartIndex text := by
    unfold looksLikeXml at h
    by_cases h1 : (idxFrom xmlDeclMarker text 0).isSome
    · obtain ⟨j, hj⟩ := Option.isSome_iff_exists.mp h1
      have hje := jsIndexOf_of_idxFrom text xmlDeclMarker j hj
      have hle := jsIndexOf_le_start_decl text
      omega
    · by_cases h2 : (idxFrom vvTmPushMarker text 0).isSome
      · obtain ⟨j, hj⟩ := Option.isSome_iff_exists.mp h2
        have hje := jsIndexOf_of_idxFrom text vvTmPushMarker j hj
        have hle := jsIndexOf_le_start_push text
        omega
      · by_cases h3 : (idxFrom kv6posinfoMarker text 0).isSome
        · obtain ⟨j, hj⟩ := Option.isSome_iff_exists.mp h3
          have hje := jsIndexOf_of_idxFrom text kv6posinfoMarker j hj
          have hle := jsIndexOf_le_start_posinfo text
          omega
        · exfalso
          simp only [Bool.not_eq_true] at h1 h2 h3
          rw [h1, h2, h3] at h
          simp at h
  have hch : xmlStartIndex text = jsIndexOf text xmlDeclMarker
      ∨ xmlStartIndex text = jsIndexOf text vvTmPushMarker
      ∨ xmlStartIndex text = jsIndexOf text kv6posinfoMarker := by
    unfold xmlStartIndex
    rcases max_choice (jsIndexOf text xmlDeclMarker)
      (max (jsIndexOf text vvTmPushMarker)
        (jsIndexOf text kv6posinfoMarker)) with h1 | h1
    · exact Or.inl h1
    · rcases max_choice (jsIndexOf text vvTmPushMarker)
        (jsIndexOf text kv6posinfoMarker) with h2 | h2
      · exact Or.inr (Or.inl (h1.trans h2))
      · exact Or.inr (Or.inr (h1.trans h2))
  refine ⟨(xmlStartIndex text).toNat, ?_, ?_, ?_, ?_, ?_, ?_⟩
  · unfold fallbackExtract
    rw [if_pos hmax0]
  · omega
  · rcases hch with hw | hw | hw
    · exact Or.inl (marker_win text xmlDeclMarker hw hmax0)
    · exact Or.inr (Or.inl (marker_win text vvTmPushMarker hw hmax0))
    · exact Or.inr (Or.inr (marker_win text kv6posinfoMarker hw hmax0))
  · exact marker_bound text xmlDeclMarker hmax0 (jsIndexOf_le_start_decl text)
  · exact marker_bound text vvTmPushMarker hmax0
      (jsIndexOf_le_start_push text)
  · exact marker_bound text kv6posinfoMarker hmax0
      (jsIndexOf_le_start_posinfo text)

/-- C7 amended witness: the sample text contains a marker and the amended
characterization applies to it. -/
theorem fallback_scan_amended_witness :
    looksLikeXml sampleFallbackText = true
    ∧ ∃ J : Nat, fallbackExtract sampleFallbackText
        = some (sampleFallbackText.drop J)
      ∧ (J : Int) = xmlStartIndex sampleFallbackText
      ∧ (leadsWith xmlDeclMarker (sampleFallbackText.drop J) = true
        ∨ leadsWith vvTmPushMarker (sampleFallbackText.drop J) = true
        ∨ leadsWith kv6posinfoMarker (sampleFallbackText.drop J) = true)
      ∧ (∀ j, idxFrom xmlDeclMarker sampleFallbackText 0 = some j → j ≤ J)
      ∧ (∀ j, idxFrom vvTmPushMarker sampleFallbackText 0 = some j → j ≤ J)
      ∧ (∀ j, idxFrom kv6posinfoMarker sampleFallbackText 0 = some j
          → j ≤ J) :=
  ⟨by decide, fallback_scan_amended sampleFallbackText (by decide)⟩
